import Mathlib

/-!
Verification of the MeetMe chat client's realtime delivery and persistence
helpers, shallowly embedded in Lean.

Modelling conventions:
* ISO-8601 timestamp strings are represented by their epoch-millisecond
  value (an `Int`), since the code only ever compares them through
  `new Date(s).getTime()` or lexicographic order, both of which agree with
  the numeric order of the instants they denote.
* JavaScript objects holding rows are plain structures; `Map`s keyed by
  channel names are association lists with `Map.set/get/delete/has`
  semantics.
* Callback function values are identified by opaque numeric ids: the code
  never calls them in the fragments under study, it only stores and
  compares them.
-/

/-- A chat message row, as in `types.ts` (`Message`).  `created_at` is the
epoch-millisecond instant denoted by the ISO timestamp string. -/
structure Message where
  id : String
  chat_id : String
  sender_id : String
  content : String
  created_at : Int
  is_ai_generated : Bool := false
  status : Option String := none
deriving DecidableEq

/-- The optimistic-duplicate test of the ChatRoom subscription handler:
same sender, same content, a pending `temp` id, and the incoming
timestamp less than 2000 ms after the optimistic one
(`new Date(newMessage.created_at).getTime() - new Date(msg.created_at).getTime() < 2000`). -/
def matchesOptimistic (incoming msg : Message) : Bool :=
  msg.sender_id == incoming.sender_id &&
  msg.content == incoming.content &&
  msg.id == "temp" &&
  decide (incoming.created_at - msg.created_at < 2000)

/-- The replacement map of the handler's optimistic branch: any entry with
id `temp`, the incoming sender and the incoming content becomes the server
message with status `sent`; every other entry is kept. -/
def replaceTempWith (incoming msg : Message) : Message :=
  if msg.id == "temp" && msg.sender_id == incoming.sender_id && msg.content == incoming.content
  then { incoming with status := some "sent" }
  else msg

/-- Insert a message into a list that is already ordered by `created_at`. -/
def insertByTime (m : Message) : List Message → List Message
  | [] => [m]
  | x :: xs =>
    if m.created_at ≤ x.created_at then m :: x :: xs else x :: insertByTime m xs

/-- Sorting by `created_at`, modelling
`updatedMessages.sort((a, b) => new Date(a.created_at).getTime() - new Date(b.created_at).getTime())`
as an insertion sort by the same key (no claim depends on the order of
equal-timestamp entries). -/
def sortByTime : List Message → List Message
  | [] => []
  | x :: xs => insertByTime x (sortByTime xs)

/-- The `setMessages` updater of the ChatRoom realtime subscription handler
(`ChatRoom`, `subscribeToChatMessages` callback): drop an already-present
id, else replace a matching optimistic entry, else append and re-sort. -/
def handleRealtimeMessage (prev : List Message) (newMessage : Message) : List Message :=
  if prev.any (fun msg => msg.id == newMessage.id) then prev
  else if prev.any (fun msg => matchesOptimistic newMessage msg) then
    prev.map (fun msg => replaceTempWith newMessage msg)
  else
    sortByTime (prev ++ [newMessage])

/-- Boolean check that a message list is in non-decreasing `created_at`
order. -/
def timeSorted : List Message → Bool
  | [] => true
  | [_] => true
  | a :: b :: rest => decide (a.created_at ≤ b.created_at) && timeSorted (b :: rest)

/-- Claim C1: an incoming realtime message whose id already occurs in the
current list leaves the list unchanged — it is neither appended again nor
re-ordered. -/
theorem handleRealtime_drops_known_id (prev : List Message) (m : Message)
    (h : ∃ msg ∈ prev, msg.id = m.id) :
    handleRealtimeMessage prev m = prev := by
  obtain ⟨msg, hmem, hid⟩ := h
  have hany : prev.any (fun x => x.id == m.id) = true :=
    List.any_eq_true.mpr ⟨msg, hmem, by simp [hid]⟩
  simp [handleRealtimeMessage, hany]

/-- Concrete messages used by the witness and counterexample theorems. -/
def wMsgKept : Message :=
  { id := "m1", chat_id := "c1", sender_id := "u1", content := "hello", created_at := 1000 }

/-- An echo of `wMsgKept`: same id, different content and timestamp. -/
def wMsgEcho : Message :=
  { id := "m1", chat_id := "c1", sender_id := "u1", content := "hello again", created_at := 2500 }

/-- Witness for C1 at a concrete input: an echo carrying an id already in
the list is dropped. -/
theorem handleRealtime_drops_known_id_witness :
    handleRealtimeMessage [wMsgKept] wMsgEcho = [wMsgKept] :=
  handleRealtime_drops_known_id [wMsgKept] wMsgEcho ⟨wMsgKept, by simp, rfl⟩

/-- Counting entries with the incoming message's id after the optimistic
replacement map: every entry matching (temp id, sender, content) turns
into the server message, and nothing else acquires that id. -/
theorem countP_map_replace_id (m : Message) (l : List Message)
    (hfresh : ∀ msg ∈ l, msg.id ≠ m.id) :
    (l.map (fun msg => replaceTempWith m msg)).countP (fun msg => msg.id == m.id) =
      l.countP (fun msg => msg.id == "temp" && msg.sender_id == m.sender_id &&
        msg.content == m.content) := by
  induction l with
  | nil => rfl
  | cons x xs ih =>
    have hx : x.id ≠ m.id := hfresh x (List.mem_cons_self x xs)
    have ihh := ih (fun msg hm => hfresh msg (List.mem_cons_of_mem x hm))
    by_cases hmatch : x.id = "temp" ∧ x.sender_id = m.sender_id ∧ x.content = m.content
    · obtain ⟨h1, h2, h3⟩ := hmatch
      have hrep : replaceTempWith m x = { m with status := some "sent" } := by
        simp [replaceTempWith, h1, h2, h3]
      rw [List.map_cons, List.countP_cons, List.countP_cons, ihh, hrep]
      simp [h1, h2, h3]
    · have hb : (x.id == "temp" && x.sender_id == m.sender_id && x.content == m.content)
          = false := by
        rcases not_and_or.mp hmatch with h | h
        · simp [h]
        · rcases not_and_or.mp h with h2 | h3
          · simp [h2]
          · simp [h3]
      have hrep : replaceTempWith m x = x := by
        simp [replaceTempWith, hb]
      rw [List.map_cons, List.countP_cons, List.countP_cons, ihh, hrep]
      simp [hb, hx]

/-- After the optimistic replacement map no entry matching
(temp id, incoming sender, incoming content) remains, provided the
incoming id itself is not the reserved `temp`. -/
theorem countP_map_replace_temp (m : Message) (l : List Message) (hmid : m.id ≠ "temp") :
    (l.map (fun msg => replaceTempWith m msg)).countP
      (fun msg => msg.id == "temp" && msg.sender_id == m.sender_id &&
        msg.content == m.content) = 0 := by
  rw [List.countP_eq_zero]
  intro y hy
  obtain ⟨x, hx, rfl⟩ := List.mem_map.mp hy
  by_cases hmatch : x.id = "temp" ∧ x.sender_id = m.sender_id ∧ x.content = m.content
  · obtain ⟨h1, h2, h3⟩ := hmatch
    simp [replaceTempWith, h1, h2, h3, hmid]
  · have hb : (x.id == "temp" && x.sender_id == m.sender_id && x.content == m.content)
        = false := by
      rcases not_and_or.mp hmatch with h | h
      · simp [h]
      · rcases not_and_or.mp h with h2 | h3
        · simp [h2]
        · simp [h3]
    have hrep : replaceTempWith m x = x := by
      simp [replaceTempWith, hb]
    rw [hrep]
    simp [hb]

/-- Claim C2: when the list holds exactly one pending optimistic entry
matching the incoming server echo (temp id, same sender, same content)
whose timestamp is within 2 seconds, and the echo's id is fresh, the
handler replaces the optimistic entry by the server message: the length
is unchanged, the server message occurs exactly once, and no matching
temp entry remains. -/
theorem handleRealtime_replaces_optimistic (prev : List Message) (m : Message)
    (hfresh : ∀ msg ∈ prev, msg.id ≠ m.id)
    (hone : prev.countP
      (fun msg => msg.id == "temp" && msg.sender_id == m.sender_id &&
        msg.content == m.content) = 1)
    (hwin : ∃ t ∈ prev, t.id = "temp" ∧ t.sender_id = m.sender_id ∧ t.content = m.content ∧
      (m.created_at - t.created_at).natAbs < 2000) :
    (handleRealtimeMessage prev m).length = prev.length ∧
    { m with status := some "sent" } ∈ handleRealtimeMessage prev m ∧
    (handleRealtimeMessage prev m).countP (fun msg => msg.id == m.id) = 1 ∧
    (handleRealtimeMessage prev m).countP
      (fun msg => msg.id == "temp" && msg.sender_id == m.sender_id &&
        msg.content == m.content) = 0 := by
  obtain ⟨t, htmem, htid, htsender, htcontent, htwin⟩ := hwin
  have hanyid : prev.any (fun msg => msg.id == m.id) = false := by
    rw [List.any_eq_false]
    intro x hx
    simp [hfresh x hx]
  have hlt : m.created_at - t.created_at < 2000 := by omega
  have hopt : prev.any (fun msg => matchesOptimistic m msg) = true := by
    rw [List.any_eq_true]
    refine ⟨t, htmem, ?_⟩
    simp [matchesOptimistic, htid, htsender, htcontent, hlt]
  have hres : handleRealtimeMessage prev m = prev.map (fun msg => replaceTempWith m msg) := by
    simp [handleRealtimeMessage, hanyid, hopt]
  have hmid : m.id ≠ "temp" := by
    intro heq
    exact hfresh t htmem (by rw [htid, heq])
  refine ⟨?_, ?_, ?_, ?_⟩
  · rw [hres, List.length_map]
  · rw [hres]
    refine List.mem_map.mpr ⟨t, htmem, ?_⟩
    simp [replaceTempWith, htid, htsender, htcontent]
  · rw [hres, countP_map_replace_id m prev hfresh, hone]
  · rw [hres]
    exact countP_map_replace_temp m prev hmid

/-- A pending optimistic entry, as built by `handleSend`. -/
def wTempMsg : Message :=
  { id := "temp", chat_id := "c1", sender_id := "u1", content := "hi",
    created_at := 1000, status := some "sent" }

/-- The server echo of `wTempMsg`: fresh id, same sender and content,
800 ms later. -/
def wServerMsg : Message :=
  { id := "m9", chat_id := "c1", sender_id := "u1", content := "hi", created_at := 1800 }

/-- Witness for C2 at a concrete input: the lone optimistic entry is
replaced by its server echo. -/
theorem handleRealtime_replaces_optimistic_witness :
    (handleRealtimeMessage [wTempMsg] wServerMsg).length = 1 ∧
    { wServerMsg with status := some "sent" } ∈ handleRealtimeMessage [wTempMsg] wServerMsg ∧
    (handleRealtimeMessage [wTempMsg] wServerMsg).countP
      (fun msg => msg.id == wServerMsg.id) = 1 ∧
    (handleRealtimeMessage [wTempMsg] wServerMsg).countP
      (fun msg => msg.id == "temp" && msg.sender_id == wServerMsg.sender_id &&
        msg.content == wServerMsg.content) = 0 :=
  handleRealtime_replaces_optimistic [wTempMsg] wServerMsg (by decide) (by decide) (by decide)

/-- Inserting into a `created_at`-sorted list keeps it sorted. -/
theorem timeSorted_insertByTime (m : Message) :
    ∀ l : List Message, timeSorted l = true → timeSorted (insertByTime m l) = true
  | [], _ => rfl
  | [x], h => by
      by_cases hle : m.created_at ≤ x.created_at
      · simp [insertByTime, hle, timeSorted]
      · simp [insertByTime, hle, timeSorted]
        omega
  | x :: y :: ys, h => by
      have hxy : x.created_at ≤ y.created_at := by
        have h1 := h
        simp [timeSorted] at h1
        exact h1.1
      have htail : timeSorted (y :: ys) = true := by
        simp [timeSorted] at h
        exact h.2
      have hins : timeSorted (insertByTime m (y :: ys)) = true :=
        timeSorted_insertByTime m (y :: ys) htail
      by_cases hle : m.created_at ≤ x.created_at
      · simp [insertByTime, hle, timeSorted, hxy, htail]
      · by_cases hmy : m.created_at ≤ y.created_at
        · simp [insertByTime, hle, hmy, timeSorted, htail]
          omega
        · simp only [insertByTime, if_neg hle, if_neg hmy] at hins ⊢
          simp [timeSorted] at hins ⊢
          exact ⟨hxy, hins⟩

/-- The re-sort applied in the handler's append branch always produces a
`created_at`-sorted list. -/
theorem timeSorted_sortByTime : ∀ l : List Message, timeSorted (sortByTime l) = true
  | [] => rfl
  | x :: xs => timeSorted_insertByTime x (sortByTime xs) (timeSorted_sortByTime xs)

/-- Claim C5, amended: when the handler appends the incoming message
(no entry with its id, no matching optimistic entry), the resulting list
is sorted by `created_at`; the drop and replacement branches keep the
previous positions instead of re-sorting. -/
theorem handleRealtime_append_sorted (prev : List Message) (m : Message)
    (h1 : prev.any (fun msg => msg.id == m.id) = false)
    (h2 : prev.any (fun msg => matchesOptimistic m msg) = false) :
    timeSorted (handleRealtimeMessage prev m) = true := by
  simp [handleRealtimeMessage, h1, h2, timeSorted_sortByTime]

/-- A late message already displayed, used by the C5 witness. -/
def wLateMsg : Message :=
  { id := "m5", chat_id := "c1", sender_id := "u1", content := "later", created_at := 2000 }

/-- An out-of-order earlier message from another sender, used by the C5
witness. -/
def wEarlyMsg : Message :=
  { id := "m6", chat_id := "c1", sender_id := "u2", content := "earlier", created_at := 100 }

/-- Witness for the amended C5 at a concrete input: appending an
out-of-order message re-establishes sortedness. -/
theorem handleRealtime_append_sorted_witness :
    timeSorted (handleRealtimeMessage [wLateMsg] wEarlyMsg) = true :=
  handleRealtime_append_sorted [wLateMsg] wEarlyMsg (by decide) (by decide)

/-- A pending optimistic entry at time 0, for the C5 counterexample. -/
def cexTempMsg : Message :=
  { id := "temp", chat_id := "c1", sender_id := "u1", content := "hi",
    created_at := 0, status := some "sent" }

/-- A later message from another sender, for the C5 counterexample. -/
def cexOtherMsg : Message :=
  { id := "m2", chat_id := "c1", sender_id := "u2", content := "yo", created_at := 500 }

/-- The server echo of `cexTempMsg` arriving 1500 ms later, for the C5
counterexample. -/
def cexServerMsg : Message :=
  { id := "m3", chat_id := "c1", sender_id := "u1", content := "hi", created_at := 1500 }

/-- Counterexample to C5 as stated: processing a server echo through the
replacement branch can leave a previously sorted list unsorted, because
the echo's later timestamp is written into the optimistic entry's old
position. -/
theorem handleRealtime_sorted_counterexample :
    timeSorted [cexTempMsg, cexOtherMsg] = true ∧
    timeSorted (handleRealtimeMessage [cexTempMsg, cexOtherMsg] cexServerMsg) = false := by
  decide

/-- Lookup in a JavaScript `Map` keyed by channel names, modelled as an
association list (`Map.get`). -/
def mapGet {α : Type} (k : String) : List (String × α) → Option α
  | [] => none
  | (k2, v) :: rest => if k2 == k then some v else mapGet k rest

/-- `Map.has`. -/
def mapHas {α : Type} (k : String) (l : List (String × α)) : Bool :=
  (mapGet k l).isSome

/-- `Map.set`: overwrite the entry when the key is present, append it
otherwise. -/
def mapSet {α : Type} (k : String) (v : α) : List (String × α) → List (String × α)
  | [] => [(k, v)]
  | (k2, v2) :: rest => if k2 == k then (k, v) :: rest else (k2, v2) :: mapSet k v rest

/-- `Map.delete`. -/
def mapDelete {α : Type} (k : String) : List (String × α) → List (String × α)
  | [] => []
  | (k2, v) :: rest => if k2 == k then mapDelete k rest else (k2, v) :: mapDelete k rest

/-- Reading back the key just set. -/
theorem mapGet_set_self {α : Type} (k : String) (v : α) :
    ∀ l : List (String × α), mapGet k (mapSet k v l) = some v
  | [] => by simp [mapSet, mapGet]
  | (k2, v2) :: rest => by
      by_cases h : k2 = k
      · simp [mapSet, mapGet, h]
      · simp [mapSet, mapGet, h, mapGet_set_self k v rest]

/-- Setting one key leaves every other key's entry unchanged. -/
theorem mapGet_set_ne {α : Type} (k k2 : String) (v : α) (hne : k2 ≠ k) :
    ∀ l : List (String × α), mapGet k2 (mapSet k v l) = mapGet k2 l
  | [] => by simp [mapSet, mapGet, Ne.symm hne]
  | (k3, v3) :: rest => by
      by_cases h : k3 = k
      · simp [mapSet, mapGet, h, Ne.symm hne]
      · simp [mapSet, mapGet, h, mapGet_set_ne k k2 v hne rest]

/-- A deleted key has no entry. -/
theorem mapGet_delete_self {α : Type} (k : String) :
    ∀ l : List (String × α), mapGet k (mapDelete k l) = none
  | [] => rfl
  | (k2, v) :: rest => by
      by_cases h : k2 = k
      · simp [mapDelete, h, mapGet_delete_self k rest]
      · simp [mapDelete, mapGet, h, mapGet_delete_self k rest]

/-- Deleting one key leaves every other key's entry unchanged. -/
theorem mapGet_delete_ne {α : Type} (k k2 : String) (hne : k2 ≠ k) :
    ∀ l : List (String × α), mapGet k2 (mapDelete k l) = mapGet k2 l
  | [] => rfl
  | (k3, v) :: rest => by
      by_cases h : k3 = k
      · simp [mapDelete, mapGet, h, Ne.symm hne, mapGet_delete_ne k k2 hne rest]
      · simp [mapDelete, mapGet, h, mapGet_delete_ne k k2 hne rest]

/-- The callback set stored per channel by `WebSocketManager`
(`WebSocketCallbacks` in `websocketService.ts`); the function values are
identified by opaque numeric ids. -/
structure WSCallbacks where
  onMessage : Option Nat := none
  onChatUpdate : Option Nat := none
  onError : Option Nat := none
  onClose : Option Nat := none
deriving DecidableEq

/-- The `WebSocketManager` singleton's per-key bookkeeping: connections,
callback sets, retry counters and heartbeat timers, each a `Map` keyed by
channel name.  Connection objects and timer handles are identified by
numeric ids. -/
structure WSManagerState where
  wsConnections : List (String × Nat)
  callbacks : List (String × WSCallbacks)
  reconnectAttempts : List (String × Nat)
  heartbeatTimers : List (String × Nat)
deriving DecidableEq

/-- The channel name used for a chat's message feed. -/
def chatChannelName (chatId : String) : String := "messages-" ++ chatId

/-- `WebSocketManager.startHeartbeat`: clear any existing heartbeat for
the channel and register a fresh timer (`timerId` stands for the new
`setInterval` handle). -/
def startHeartbeat (st : WSManagerState) (ch : String) (timerId : Nat) : WSManagerState :=
  { st with heartbeatTimers := mapSet ch timerId st.heartbeatTimers }

/-- `WebSocketManager.createConnection`: reset the channel's reconnect
counter to 0 and start its heartbeat (the try block cannot fail, so the
error path is dead). -/
def createConnection (st : WSManagerState) (ch : String) (timerId : Nat) : WSManagerState :=
  startHeartbeat { st with reconnectAttempts := mapSet ch 0 st.reconnectAttempts } ch timerId

/-- `WebSocketManager.updateCallbacks` at the `subscribeToChatMessages`
call site: the spread `{ ...existing, ...incoming }` overwrites the three
keys present on the incoming object (`onMessage`, `onError`, `onClose`,
even when their values are `undefined`) and keeps the rest. -/
def updateChatCallbacks (existing incoming : WSCallbacks) : WSCallbacks :=
  { onMessage := incoming.onMessage, onChatUpdate := existing.onChatUpdate,
    onError := incoming.onError, onClose := incoming.onClose }

/-- `WebSocketManager.subscribeToChatMessages`: store the callback set;
if a connection for the channel already exists merely update the
callbacks, otherwise create a connection.  The returned flag records
whether `createConnection` was invoked. -/
def subscribeToChatMessages (st : WSManagerState) (chatId : String)
    (onMsg : Nat) (onErr onCl : Option Nat) (timerId : Nat) :
    WSManagerState × Bool :=
  let ch := chatChannelName chatId
  let cbs : WSCallbacks := { onMessage := some onMsg, onError := onErr, onClose := onCl }
  let st1 := { st with callbacks := mapSet ch cbs st.callbacks }
  if mapHas ch st1.wsConnections then
    let existing := (mapGet ch st1.callbacks).getD {}
    ({ st1 with callbacks := mapSet ch (updateChatCallbacks existing cbs) st1.callbacks },
     false)
  else
    (createConnection st1 ch timerId, true)

/-- `WebSocketManager.unsubscribe`: clear the heartbeat timer, close and
drop the connection, and delete the callback set and retry counter.  The
second component is the connection that was closed, when one existed. -/
def unsubscribe (st : WSManagerState) (ch : String) : WSManagerState × Option Nat :=
  ({ wsConnections := mapDelete ch st.wsConnections
   , callbacks := mapDelete ch st.callbacks
   , reconnectAttempts := mapDelete ch st.reconnectAttempts
   , heartbeatTimers := mapDelete ch st.heartbeatTimers },
   mapGet ch st.wsConnections)

/-- Claim C6: re-subscribing to a chat whose channel already has a live
connection replaces the stored callback set with the new callbacks and
changes nothing else: no new connection is created, the connection map,
retry counters and heartbeat timers are untouched, and other keys'
callback entries are unchanged. -/
theorem subscribe_existing_keeps_channel (st : WSManagerState) (chatId : String)
    (onMsg : Nat) (onErr onCl : Option Nat) (timerId : Nat)
    (h : mapHas (chatChannelName chatId) st.wsConnections = true) :
    (subscribeToChatMessages st chatId onMsg onErr onCl timerId).2 = false ∧
    mapGet (chatChannelName chatId)
        (subscribeToChatMessages st chatId onMsg onErr onCl timerId).1.callbacks =
      some { onMessage := some onMsg, onChatUpdate := none,
             onError := onErr, onClose := onCl } ∧
    (subscribeToChatMessages st chatId onMsg onErr onCl timerId).1.wsConnections =
      st.wsConnections ∧
    (subscribeToChatMessages st chatId onMsg onErr onCl timerId).1.reconnectAttempts =
      st.reconnectAttempts ∧
    (subscribeToChatMessages st chatId onMsg onErr onCl timerId).1.heartbeatTimers =
      st.heartbeatTimers ∧
    ∀ k, k ≠ chatChannelName chatId →
      mapGet k (subscribeToChatMessages st chatId onMsg onErr onCl timerId).1.callbacks =
        mapGet k st.callbacks := by
  refine ⟨?_, ?_, ?_, ?_, ?_, ?_⟩
  · simp [subscribeToChatMessages, h]
  · simp [subscribeToChatMessages, h, mapGet_set_self, updateChatCallbacks]
  · simp [subscribeToChatMessages, h]
  · simp [subscribeToChatMessages, h]
  · simp [subscribeToChatMessages, h]
  · intro k hk
    simp only [subscribeToChatMessages, h, if_true]
    rw [mapGet_set_ne _ _ _ hk, mapGet_set_ne _ _ _ hk]

/-- A manager state with a live chat channel, used by the C6 witness. -/
def wWSState : WSManagerState :=
  { wsConnections := [("messages-c1", 7)]
  , callbacks := [("messages-c1",
      { onMessage := some 1, onChatUpdate := none, onError := some 2, onClose := some 3 })]
  , reconnectAttempts := [("messages-c1", 2)]
  , heartbeatTimers := [("messages-c1", 3)] }

/-- Witness for C6 at a concrete input: re-subscribing replaces the
callbacks and leaves retry counter, timers, connection and other keys
untouched. -/
theorem subscribe_existing_keeps_channel_witness :
    (subscribeToChatMessages wWSState "c1" 11 (some 12) none 99).2 = false ∧
    mapGet "messages-c1"
        (subscribeToChatMessages wWSState "c1" 11 (some 12) none 99).1.callbacks =
      some { onMessage := some 11, onChatUpdate := none,
             onError := some 12, onClose := none } ∧
    (subscribeToChatMessages wWSState "c1" 11 (some 12) none 99).1.reconnectAttempts =
      [("messages-c1", 2)] ∧
    mapGet "other" (subscribeToChatMessages wWSState "c1" 11 (some 12) none 99).1.callbacks =
      none :=
  ⟨(subscribe_existing_keeps_channel wWSState "c1" 11 (some 12) none 99 (by decide)).1,
   (subscribe_existing_keeps_channel wWSState "c1" 11 (some 12) none 99 (by decide)).2.1,
   (subscribe_existing_keeps_channel wWSState "c1" 11 (some 12) none 99 (by decide)).2.2.2.1,
   (subscribe_existing_keeps_channel wWSState "c1" 11 (some 12) none 99
      (by decide)).2.2.2.2.2 "other" (by decide)⟩

/-- Claim C7: after `unsubscribe(key)` no bookkeeping for the key remains
in any of the four maps, the connection that was stored (if any) is the
one closed, and every other key's entries are untouched. -/
theorem unsubscribe_removes_all (st : WSManagerState) (ch : String) :
    (unsubscribe st ch).2 = mapGet ch st.wsConnections ∧
    mapGet ch (unsubscribe st ch).1.wsConnections = none ∧
    mapGet ch (unsubscribe st ch).1.callbacks = none ∧
    mapGet ch (unsubscribe st ch).1.reconnectAttempts = none ∧
    mapGet ch (unsubscribe st ch).1.heartbeatTimers = none ∧
    ∀ k, k ≠ ch →
      mapGet k (unsubscribe st ch).1.wsConnections = mapGet k st.wsConnections ∧
      mapGet k (unsubscribe st ch).1.callbacks = mapGet k st.callbacks ∧
      mapGet k (unsubscribe st ch).1.reconnectAttempts = mapGet k st.reconnectAttempts ∧
      mapGet k (unsubscribe st ch).1.heartbeatTimers = mapGet k st.heartbeatTimers := by
  refine ⟨rfl, mapGet_delete_self ch _, mapGet_delete_self ch _, mapGet_delete_self ch _,
    mapGet_delete_self ch _, ?_⟩
  intro k hk
  exact ⟨mapGet_delete_ne ch k hk _, mapGet_delete_ne ch k hk _,
    mapGet_delete_ne ch k hk _, mapGet_delete_ne ch k hk _⟩

/-- A manager state with two live channels, used by the C7 witness. -/
def wWSState2 : WSManagerState :=
  { wsConnections := [("messages-a", 4), ("messages-b", 5)]
  , callbacks := [("messages-a", { onMessage := some 6 }),
                  ("messages-b", { onMessage := some 7 })]
  , reconnectAttempts := [("messages-a", 1), ("messages-b", 2)]
  , heartbeatTimers := [("messages-a", 8), ("messages-b", 9)] }

/-- Witness for C7 at a concrete input: unsubscribing one channel closes
its stored connection, clears all four of its entries, and keeps the
other channel's entries. -/
theorem unsubscribe_removes_all_witness :
    (unsubscribe wWSState2 "messages-b").2 = some 5 ∧
    mapGet "messages-b" (unsubscribe wWSState2 "messages-b").1.callbacks = none ∧
    mapGet "messages-b" (unsubscribe wWSState2 "messages-b").1.reconnectAttempts = none ∧
    mapGet "messages-a" (unsubscribe wWSState2 "messages-b").1.callbacks =
      some { onMessage := some 6 } :=
  ⟨(unsubscribe_removes_all wWSState2 "messages-b").1,
   (unsubscribe_removes_all wWSState2 "messages-b").2.2.1,
   (unsubscribe_removes_all wWSState2 "messages-b").2.2.2.1,
   ((unsubscribe_removes_all wWSState2 "messages-b").2.2.2.2.2 "messages-a"
     (by decide)).2.1⟩

/-- `WebSocketManager.maxReconnectAttempts`. -/
def maxReconnectAttempts : Nat := 5

/-- The retry bookkeeping of one channel: the `reconnectAttempts` counter
and the number of `setTimeout(createConnection)` reconnects scheduled but
not yet fired. -/
structure ChannelRetryState where
  attempts : Nat
  pendingReconnects : Nat
deriving DecidableEq

/-- `WebSocketManager.handleConnectionError` for one channel: while the
counter is under the cap, increment it and schedule a reconnect after the
fixed delay; once at the cap, surface the error to the registered
`onError` callback and schedule nothing.  The returned flags are
(reconnect scheduled, error surfaced). -/
def handleConnectionError (s : ChannelRetryState) : ChannelRetryState × Bool × Bool :=
  if s.attempts < maxReconnectAttempts then
    ({ attempts := s.attempts + 1, pendingReconnects := s.pendingReconnects + 1 },
     true, false)
  else
    (s, false, true)

/-- A scheduled reconnect timeout firing: `createConnection` runs and
resets the channel's retry counter to 0. -/
def reconnectFire (s : ChannelRetryState) : ChannelRetryState :=
  if 0 < s.pendingReconnects then
    { attempts := 0, pendingReconnects := s.pendingReconnects - 1 }
  else s

/-- The events driving one channel's reconnection logic: a transport
error/lost connection, or a scheduled reconnect timeout firing. -/
inductive WSEvent where
  | connError
  | reconnectTimer
deriving DecidableEq

/-- Run a sequence of transport failures and reconnect-timer firings,
returning the final state, the number of reconnection attempts scheduled,
and the number of errors surfaced to `onError`. -/
def runRetryTrace (s : ChannelRetryState) : List WSEvent → ChannelRetryState × Nat × Nat
  | [] => (s, 0, 0)
  | WSEvent.connError :: rest =>
    let r := handleConnectionError s
    let r2 := runRetryTrace r.1 rest
    (r2.1, (if r.2.1 then 1 else 0) + r2.2.1, (if r.2.2 then 1 else 0) + r2.2.2)
  | WSEvent.reconnectTimer :: rest => runRetryTrace (reconnectFire s) rest

/-- Claim C3, amended: over any run of consecutive transport failures
with no intervening reconnect execution, starting from counter value `a`,
exactly `min n (5 - a)` reconnects are scheduled — never more than 5 —
and each of the remaining `n - (5 - a)` failures surfaces the error to
`onError` and schedules nothing.  Across a whole trace the attempts are
not bounded, because every executed reconnect resets the counter to 0
(see the counterexample). -/
theorem consecutive_errors_capped (n a p : Nat) :
    (runRetryTrace { attempts := a, pendingReconnects := p }
        (List.replicate n WSEvent.connError)).2.1 = min n (maxReconnectAttempts - a) ∧
    (runRetryTrace { attempts := a, pendingReconnects := p }
        (List.replicate n WSEvent.connError)).2.2 = n - (maxReconnectAttempts - a) := by
  induction n generalizing a p with
  | zero => simp [runRetryTrace]
  | succ k ih =>
    rw [List.replicate_succ]
    by_cases h : a < maxReconnectAttempts
    · have hih := ih (a + 1) (p + 1)
      simp [runRetryTrace, handleConnectionError, h, hih.1, hih.2]
      unfold maxReconnectAttempts at h ⊢
      omega
    · have hih := ih a p
      simp [runRetryTrace, handleConnectionError, h, hih.1, hih.2]
      unfold maxReconnectAttempts at h ⊢
      omega

/-- Six rounds of transport failure each followed by the scheduled
reconnect firing. -/
def stormTrace : List WSEvent :=
  [WSEvent.connError, WSEvent.reconnectTimer, WSEvent.connError, WSEvent.reconnectTimer,
   WSEvent.connError, WSEvent.reconnectTimer, WSEvent.connError, WSEvent.reconnectTimer,
   WSEvent.connError, WSEvent.reconnectTimer, WSEvent.connError, WSEvent.reconnectTimer]

/-- Counterexample to C3 as stated: a channel whose transport keeps
failing schedules a 6th reconnection attempt, because every executed
reconnect (`createConnection`) resets the retry counter to 0 before the
next failure is counted — the cap of 5 never takes effect across
reconnect executions. -/
theorem reconnect_cap_counterexample :
    maxReconnectAttempts <
      (runRetryTrace { attempts := 0, pendingReconnects := 0 } stormTrace).2.1 := by
  decide

/-- A story row, as in `types.ts` (`Story`); `created_at` is the
epoch-millisecond instant of the ISO timestamp. -/
structure Story where
  id : String
  user_id : String
  image_url : String
  created_at : Int
  caption : Option String := none
deriving DecidableEq

/-- The 24-hour expiry window used by `cleanupExpiredStories`
(`Date.now() - 24 * 60 * 60 * 1000`). -/
def storyMaxAgeMs : Int := 24 * 60 * 60 * 1000

/-- The ids selected by `cleanupExpiredStories`' fetch: stories whose
`created_at` is strictly below the cutoff 24 hours before the sweep. -/
def expiredStoryIds (now : Int) (stories : List Story) : List String :=
  (stories.filter (fun s => decide (s.created_at < now - storyMaxAgeMs))).map (fun s => s.id)

/-- The effect of `cleanupExpiredStories` on the stories table: delete the
rows whose id is among the fetched expired ids
(`.delete().in('id', expiredIds)`). -/
def cleanupExpiredStories (now : Int) (stories : List Story) : List Story :=
  stories.filter (fun s => decide (s.id ∉ expiredStoryIds now stories))

/-- Claim C4: under the table's primary-key invariant (distinct ids), the
sweep deletes exactly the stories strictly older than 24 hours before the
sweep time, keeping every story with a newer timestamp. -/
theorem cleanup_deletes_exactly_expired (now : Int) (stories : List Story)
    (hids : (stories.map (fun s => s.id)).Nodup) :
    cleanupExpiredStories now stories =
      stories.filter (fun s => decide (now - storyMaxAgeMs ≤ s.created_at)) := by
  apply List.filter_congr
  intro s hs
  by_cases hold : s.created_at < now - storyMaxAgeMs
  · have hmem : s.id ∈ expiredStoryIds now stories :=
      List.mem_map.mpr ⟨s, List.mem_filter.mpr ⟨hs, by simp [hold]⟩, rfl⟩
    simp [hmem, hold]
    omega
  · have hnot : s.id ∉ expiredStoryIds now stories := by
      intro hmem
      obtain ⟨t, htmem, htid⟩ := List.mem_map.mp hmem
      have ht := List.mem_filter.mp htmem
      have hts : t = s := List.inj_on_of_nodup_map hids ht.1 hs htid
      rw [hts] at ht
      simp at ht
      exact hold ht.2
    simp [hnot]
    omega

/-- Two stories on either side of the 24-hour cutoff, used by the C4
witness. -/
def wStories : List Story :=
  [{ id := "s1", user_id := "u1", image_url := "https://x/old.jpg", created_at := 100 },
   { id := "s2", user_id := "u2", image_url := "https://x/new.jpg", created_at := 199999999 }]

/-- Witness for C4 at a concrete input: the sweep at t = 200000000 keeps
exactly the story inside the last 24 hours. -/
theorem cleanup_deletes_exactly_expired_witness :
    cleanupExpiredStories 200000000 wStories =
      wStories.filter (fun s => decide (200000000 - storyMaxAgeMs ≤ s.created_at)) :=
  cleanup_deletes_exactly_expired 200000000 wStories (by decide)

/-- A friend-list row, as in `types.ts` (`Friend`). -/
structure Friend where
  id : String
  user_id : String
  friend_id : String
deriving DecidableEq

/-- `mockDB.addFriend` (`supabaseMock.ts`; `supabaseDB.addFriend` has the
same logic): reject adding oneself, do nothing when an (owner, friend)
row already exists, otherwise push the symmetric pair of rows.  The two
fresh random row ids are passed in as `newId1`, `newId2`. -/
def addFriend (userId friendId newId1 newId2 : String) (friends : List Friend) :
    Except String (List Friend) :=
  if userId == friendId then Except.error "Cannot add yourself"
  else if friends.any (fun fr => fr.user_id == userId && fr.friend_id == friendId) then
    Except.ok friends
  else
    Except.ok (friends ++
      [{ id := newId1, user_id := userId, friend_id := friendId },
       { id := newId2, user_id := friendId, friend_id := userId }])

/-- Claim C8: for distinct users with no existing (owner u, friend f) row,
`addFriend` inserts exactly the two symmetric rows; with an existing row
it inserts nothing; with u = f it fails with an error and inserts
nothing. -/
theorem addFriend_pairs (u f i1 i2 : String) (friends : List Friend) :
    (u ≠ f → (∀ fr ∈ friends, ¬(fr.user_id = u ∧ fr.friend_id = f)) →
      addFriend u f i1 i2 friends =
        Except.ok (friends ++
          [{ id := i1, user_id := u, friend_id := f },
           { id := i2, user_id := f, friend_id := u }])) ∧
    (u ≠ f → (∃ fr ∈ friends, fr.user_id = u ∧ fr.friend_id = f) →
      addFriend u f i1 i2 friends = Except.ok friends) ∧
    (u = f → addFriend u f i1 i2 friends = Except.error "Cannot add yourself") := by
  refine ⟨?_, ?_, ?_⟩
  · intro hne hno
    have hb : friends.any (fun fr => fr.user_id == u && fr.friend_id == f) = false := by
      rw [List.any_eq_false]
      intro fr hfr
      simp only [Bool.and_eq_true, beq_iff_eq]
      exact hno fr hfr
    simp [addFriend, hne, hb]
  · intro hne hex
    obtain ⟨fr, hfr, h1, h2⟩ := hex
    have hb : friends.any (fun fr => fr.user_id == u && fr.friend_id == f) = true :=
      List.any_eq_true.mpr ⟨fr, hfr, by simp [h1, h2]⟩
    simp [addFriend, hne, hb]
  · intro he
    simp [addFriend, he]

/-- Witness for C8 at a concrete input: adding a new friendship to an
empty table inserts the two symmetric rows. -/
theorem addFriend_pairs_witness :
    addFriend "u1" "u2" "fr1" "fr2" [] =
      Except.ok [{ id := "fr1", user_id := "u1", friend_id := "u2" },
                 { id := "fr2", user_id := "u2", friend_id := "u1" }] :=
  (addFriend_pairs "u1" "u2" "fr1" "fr2" []).1 (by decide) (by simp)

/-- The method names defined on the `supabaseDB` service object
(its object-literal keys). -/
def supabaseDBMethodNames : List String :=
  ["getChats", "createChat", "getMessages", "sendMessage", "getFriends", "addFriend",
   "getUserById", "getAllUsers", "updateUserStatus", "updateUserProfile", "getStories",
   "addStory", "uploadStory", "subscribeToChatMessages", "subscribeToChats",
   "subscribeToUserStatus", "unsubscribeFromChannel", "unsubscribeAll",
   "getConnectionStatus", "testRealtimeConnection", "deleteChatForUser",
   "deleteChatCompletely"]

/-- The `mockDB.markMessagesAsRead(chatId, userId)` call made by the
ChatRoom `loadMsgs` effect: calling an undefined property throws a
`TypeError` before anything else runs. -/
def markMessagesAsReadCall : Except String Unit :=
  if supabaseDBMethodNames.contains "markMessagesAsRead" then Except.ok ()
  else Except.error "TypeError: mockDB.markMessagesAsRead is not a function"

/-- The `loadMsgs` effect of `ChatRoom`: display the fetched messages,
then try `markMessagesAsRead` with the error caught and logged.  The
result is the displayed list together with the logged error, if any;
since the method is undefined the call throws before touching any row. -/
def loadMsgs (loaded : List Message) : List Message × Option String :=
  match markMessagesAsReadCall with
  | Except.ok _ => (loaded, none)
  | Except.error e => (loaded, some e)

/-- Claim C9: the mark-as-read step always fails — `markMessagesAsRead`
is not among the service object's methods, so the call throws, the error
is caught and logged, and the displayed messages (and every row's status
and read state) are unchanged by opening a chat. -/
theorem markMessagesAsRead_always_fails (loaded : List Message) :
    supabaseDBMethodNames.contains "markMessagesAsRead" = false ∧
    (loadMsgs loaded).1 = loaded ∧
    (loadMsgs loaded).2 =
      some "TypeError: mockDB.markMessagesAsRead is not a function" := by
  exact ⟨by decide, rfl, rfl⟩

/-- The optimistic entry appended by `handleSend` before the database
send. -/
def mkTempMessage (chatId senderId text : String) (now : Int) : Message :=
  { id := "temp", chat_id := chatId, sender_id := senderId, content := text,
    created_at := now, status := some "sent" }

/-- The optimistic update of `handleSend`:
`setMessages(prev => [...prev, tempMsg])`. -/
def appendOptimistic (prev : List Message) (t : Message) : List Message := prev ++ [t]

/-- The catch branch of `handleSend` when `sendMessage` rejects:
`setMessages(prev => prev.filter(msg => msg.id !== 'temp'))`. -/
def removeTempOnSendError (prev : List Message) : List Message :=
  prev.filter (fun msg => msg.id != "temp")

/-- Claim C10: when the database send fails, the rollback removes every
pending `temp` entry — in particular the one just appended — so a list
that held no other optimistic entry is restored exactly to its
pre-append contents, and no `temp` entry survives. -/
theorem handleSend_error_removes_temp (before : List Message)
    (chatId senderId text : String) (now : Int) :
    removeTempOnSendError (appendOptimistic before (mkTempMessage chatId senderId text now)) =
      removeTempOnSendError before ∧
    ((∀ msg ∈ before, msg.id ≠ "temp") →
      removeTempOnSendError (appendOptimistic before (mkTempMessage chatId senderId text now)) =
        before) ∧
    ∀ msg ∈ removeTempOnSendError
        (appendOptimistic before (mkTempMessage chatId senderId text now)),
      msg.id ≠ "temp" := by
  refine ⟨?_, ?_, ?_⟩
  · unfold removeTempOnSendError appendOptimistic
    rw [List.filter_append]
    simp [mkTempMessage]
  · intro hclean
    unfold removeTempOnSendError appendOptimistic
    rw [List.filter_append]
    simp only [mkTempMessage]
    have hself : List.filter (fun msg => msg.id != "temp") before = before :=
      List.filter_eq_self.mpr (fun msg hm => by simp [hclean msg hm])
    rw [hself]
    simp
  · intro msg hm
    have h2 := (List.mem_filter.mp hm).2
    simpa using h2

/-- Witness for C10 at a concrete input: after a failed send, the list
that held one real message plus the freshly appended optimistic entry is
restored exactly. -/
theorem handleSend_error_removes_temp_witness :
    removeTempOnSendError
        (appendOptimistic [wMsgKept] (mkTempMessage "c1" "u1" "oops" 3000)) =
      [wMsgKept] :=
  (handleSend_error_removes_temp [wMsgKept] "c1" "u1" "oops" 3000).2.1 (by decide)
